import Mathlib

/-!
Shallow embedding of the session-scoped search/summary orchestration layer
of the ArXiv similarity-search backend (src/main.py).

Python dictionaries holding request/result payloads are embedded as Lean
structures whose fields are `Option`-valued: `none` models an absent key
(Python `dict.get` returning `None`), and the defaulted reads
(`results.get('keywords', [])` and so on) become `Option.getD`.  Python
truthiness of a result dictionary (`if not results`) is embedded as
`toBool`: a dictionary is falsy exactly when it is empty, i.e. when every
tracked key is absent.  Machine strings are Lean `String`s; Python slicing
`s[:300]` over code points is `String.take 300`.  The session store and
the orchestrator registry are explicit state threaded through the
handlers, and `HTTPException` outcomes are the `err` branch of `HResult`.
-/

namespace ArxivFrontend

/-- Deep-dive summary payload produced by the summarization capability
(the keys read by the handler in src/main.py, lines 329-334). -/
structure Summary where
  research_objective : Option String
  methodology_summary : Option String
  key_findings : Option (List String)
  innovation_and_contribution : Option String
  technical_details : Option String
  limitations_and_future_work : Option String
deriving Repr, DecidableEq

/-- Python truthiness of the summary dictionary: falsy iff empty
(no tracked key present). -/
def Summary.toBool (s : Summary) : Bool :=
  s.research_objective.isSome || s.methodology_summary.isSome ||
  s.key_findings.isSome || s.innovation_and_contribution.isSome ||
  s.technical_details.isSome || s.limitations_and_future_work.isSome

/-- One candidate paper inside a result set (the keys read by
src/main.py, lines 246-257 and 302-334). -/
structure Paper where
  rank : Option Int
  title : Option String
  authors : Option (List String)
  year : Option Int
  arxiv_id : Option String
  url : Option String
  similarity : Option Int
  rerank_score : Option Int
  abstract : Option String
  summary : Option Summary
deriving Repr, DecidableEq

/-- Metrics mapping carried verbatim from the pipeline result into the
search response. -/
abbrev Metrics := List (String × Int)

/-- Full output of one pipeline invocation (the keys read by
src/main.py, lines 239-261 and 295). -/
structure ResultSet where
  query_timestamp : Option String
  keywords : Option (List String)
  metrics : Option Metrics
  top_5_papers : Option (List Paper)
  comparative_analysis : Option String
deriving Repr, DecidableEq

/-- Python truthiness of the result dictionary: falsy iff empty
(no tracked key present). -/
def ResultSet.toBool (r : ResultSet) : Bool :=
  r.query_timestamp.isSome || r.keywords.isSome || r.metrics.isSome ||
  r.top_5_papers.isSome || r.comparative_analysis.isSome

/-- Modelled from the spec: `MockPipelineOrchestrator`
(src/pipeline_orchestrator.py is not part of the given sources) is the
mode-scoped PipelineHandle collaborator, an object exposing
`run_pipeline(abstract) -> ResultSet | None` and
`generate_summary(paper) -> Summary | None`. -/
structure PipelineHandle where
  mode : String
  run_pipeline : String → Option ResultSet
  generate_summary : Paper → Option Summary

/-- The constructor `MockPipelineOrchestrator(mode=mode)`, abstracted:
any function producing a handle from a mode string. -/
abbrev MkOrch := String → PipelineHandle

/-- The module-level `orchestrators` dictionary of src/main.py
(lines 42-45): exactly the two keys "arxiv" and "local", each holding
either `None` (not yet created) or a live handle. -/
structure Registry where
  arxivOrch : Option PipelineHandle
  localOrch : Option PipelineHandle

/-- The module-level `sessions` dictionary (src/main.py line 48). -/
abbrev Sessions := String → Option ResultSet

/-- Python dictionary assignment `sessions[k] = v`. -/
def Sessions.set (s : Sessions) (k : String) (v : ResultSet) : Sessions :=
  fun q => if q = k then some v else s q

/-- The mutable module-level state of the server process. -/
structure ServerState where
  registry : Registry
  sessions : Sessions

/-- Body of a POST /api/search request (src/main.py lines 51-54). -/
structure SearchRequest where
  mode : String
  abstract : String
deriving Repr, DecidableEq

/-- Body of a POST /api/summary request (src/main.py lines 57-61). -/
structure SummaryRequest where
  mode : String
  paper_index : Int
  session_id : String
deriving Repr, DecidableEq

/-- Outcome of a request handler: a 200 payload, or an HTTPException
with a status code and a detail string. -/
inductive HResult (α : Type) where
  | ok : α → HResult α
  | err : Nat → String → HResult α
deriving Repr, DecidableEq

def abstractTooShortDetail : String :=
  "Abstract too short. Please provide at least 50 characters."

def invalidModeDetail : String :=
  "Invalid mode. Must be \x27arxiv\x27 or \x27local\x27."

def searchFailedDetail : String :=
  "Search failed. Please try again."

def sessionNotFoundDetail : String :=
  "Session not found. Please perform a search first."

def invalidPaperIndexDetail : String :=
  "Invalid paper index. Must be between 1 and 5."

def paperNotFoundDetail : String :=
  "Paper not found."

def summaryFailedDetail : String :=
  "Summary generation failed."

def listIndexErrorDetail : String :=
  "list index out of range"

/-- `str(KeyError(k))` in Python: the repr of the missing key. -/
def keyErrorRepr (k : String) : String :=
  "\x27" ++ k ++ "\x27"

/-- Outcome of reading `orchestrators[mode]` and memoizing: either a
handle together with the registry after the call, or a KeyError whose
message is the repr of the missing key. -/
inductive OrchLookup where
  | found : PipelineHandle → Registry → OrchLookup
  | keyError : String → OrchLookup

/-- `get_orchestrator` (src/main.py lines 99-103): if the stored slot for
`mode` is `None`, construct a handle and store it; return the stored
handle.  A mode outside the dictionary keys raises KeyError. -/
def get_orchestrator (mk : MkOrch) (r : Registry) (mode : String) : OrchLookup :=
  if mode = "arxiv" then
    match r.arxivOrch with
    | some h => .found h r
    | none => .found (mk mode) { r with arxivOrch := some (mk mode) }
  else if mode = "local" then
    match r.localOrch with
    | some h => .found h r
    | none => .found (mk mode) { r with localOrch := some (mk mode) }
  else
    .keyError (keyErrorRepr mode)

/-- The handle `get_orchestrator` yields for a valid mode: the stored one
if present, else a freshly constructed one. -/
def resolveHandle (mk : MkOrch) (r : Registry) (mode : String) : PipelineHandle :=
  if mode = "arxiv" then r.arxivOrch.getD (mk mode)
  else r.localOrch.getD (mk mode)

/-- The registry after `get_orchestrator` on a valid mode: the slot for
that mode is filled (with the stored handle if there was one, else the
fresh one); the other slot is untouched. -/
def resolveReg (mk : MkOrch) (r : Registry) (mode : String) : Registry :=
  if mode = "arxiv" then { r with arxivOrch := some (r.arxivOrch.getD (mk mode)) }
  else { r with localOrch := some (r.localOrch.getD (mk mode)) }

/-- Two-digit zero-padded decimal rendering, as strftime produces for
%m %d %H %M %S (each field is at most two digits wide). -/
def pad2 (n : Nat) : String :=
  String.mk [Char.ofNat (48 + n / 10), Char.ofNat (48 + n % 10)]

/-- Four-digit zero-padded decimal rendering, as strftime produces
for %Y on in-range years. -/
def pad4 (n : Nat) : String :=
  String.mk [Char.ofNat (48 + n / 1000), Char.ofNat (48 + n / 100 % 10),
             Char.ofNat (48 + n / 10 % 10), Char.ofNat (48 + n % 10)]

/-- A wall-clock instant, broken into calendar fields. -/
structure DateTime where
  year : Nat
  month : Nat
  day : Nat
  hour : Nat
  minute : Nat
  second : Nat
deriving Repr, DecidableEq

/-- Modelled from the spec: `datetime.now().strftime` is the Python
standard library; the spec fixes the rendered shape to YYYYMMDD_HHMMSS. -/
def strftimeYmdHMS (t : DateTime) : String :=
  pad4 t.year ++ pad2 t.month ++ pad2 t.day ++ "_" ++
  pad2 t.hour ++ pad2 t.minute ++ pad2 t.second

/-- One formatted paper entry of the search response
(src/main.py lines 246-257). -/
structure SearchPaperView where
  rank : Option Int
  title : Option String
  authors : List String
  year : Option Int
  arxiv_id : Option String
  url : String
  similarity : Option Int
  rerank_score : Option Int
  abstract : String
deriving Repr, DecidableEq

/-- The 200 payload of POST /api/search (src/main.py lines 235-261). -/
structure SearchResponse where
  session_id : String
  mode : String
  query_abstract : String
  timestamp : Option String
  keywords : List String
  metrics : Metrics
  top_5_papers : List SearchPaperView
  comparative_analysis : Option String
deriving Repr, DecidableEq

/-- Python string slicing `s[:n]`: the first `n` Unicode code points
of `s` (all of `s` when it is shorter than `n`). -/
def pySlice (s : String) (n : Nat) : String :=
  String.mk (s.data.take n)

/-- Formatting of one paper for the search response
(src/main.py lines 247-257): defaulted reads of the paper dictionary,
with the abstract sliced to its first 300 code points and "..."
appended unconditionally. -/
def formatPaper (p : Paper) : SearchPaperView :=
  { rank := p.rank
    title := p.title
    authors := p.authors.getD []
    year := p.year
    arxiv_id := p.arxiv_id
    url := p.url.getD ""
    similarity := p.similarity
    rerank_score := p.rerank_score
    abstract := pySlice (p.abstract.getD "") 300 ++ "..." }

/-- Assembly of the search response (src/main.py lines 235-261):
session id, echoed request fields, defaulted result fields, the first
five papers formatted, and the comparative analysis only when the
result dictionary holds that key. -/
def searchResponseOf (req : SearchRequest) (session_id : String)
    (results : ResultSet) : SearchResponse :=
  { session_id := session_id
    mode := req.mode
    query_abstract := req.abstract
    timestamp := results.query_timestamp
    keywords := results.keywords.getD []
    metrics := results.metrics.getD []
    top_5_papers := ((results.top_5_papers.getD []).take 5).map formatPaper
    comparative_analysis := results.comparative_analysis }

/-- The POST /api/search handler `search_papers`
(src/main.py lines 201-271): validate abstract length, validate mode,
resolve the orchestrator, run the pipeline, reject falsy results, store
the result set under a fresh session id, and project the response.
A KeyError from the registry would be caught by the generic handler and
surfaced as a 500 with the fault message. -/
def search_papers (mk : MkOrch) (now : DateTime) (st : ServerState)
    (req : SearchRequest) : ServerState × HResult SearchResponse :=
  if req.abstract.length < 50 then
    (st, .err 400 abstractTooShortDetail)
  else if ¬ (req.mode = "arxiv" ∨ req.mode = "local") then
    (st, .err 400 invalidModeDetail)
  else
    match get_orchestrator mk st.registry req.mode with
    | .keyError msg => (st, .err 500 msg)
    | .found orch reg2 =>
      match orch.run_pipeline req.abstract with
      | none => ({ st with registry := reg2 }, .err 500 searchFailedDetail)
      | some results =>
        if ¬ results.toBool then
          ({ st with registry := reg2 }, .err 500 searchFailedDetail)
        else
          let session_id := req.mode ++ "_" ++ strftimeYmdHMS now
          ({ registry := reg2,
             sessions := st.sessions.set session_id results },
           .ok (searchResponseOf req session_id results))

/-- Paper identity block of the summary response
(src/main.py lines 321-327). -/
structure SummaryPaperView where
  rank : Option Int
  title : Option String
  authors : List String
  year : Option Int
  arxiv_id : Option String
deriving Repr, DecidableEq

/-- Normalized summary block of the summary response
(src/main.py lines 328-335): every field defaulted to empty. -/
structure SummaryView where
  research_objective : String
  methodology_summary : String
  key_findings : List String
  innovation_and_contribution : String
  technical_details : String
  limitations_and_future_work : String
deriving Repr, DecidableEq

/-- The 200 payload of POST /api/summary (src/main.py lines 320-336). -/
structure SummaryResponse where
  paper : SummaryPaperView
  summary : SummaryView
deriving Repr, DecidableEq

/-- Assembly of the summary response (src/main.py lines 320-336) from
the (already mutated) paper record and the generated summary. -/
def summaryResponseOf (paper : Paper) (s : Summary) : SummaryResponse :=
  { paper :=
    { rank := paper.rank
      title := paper.title
      authors := paper.authors.getD []
      year := paper.year
      arxiv_id := paper.arxiv_id }
    summary :=
    { research_objective := s.research_objective.getD ""
      methodology_summary := s.methodology_summary.getD ""
      key_findings := s.key_findings.getD []
      innovation_and_contribution := s.innovation_and_contribution.getD ""
      technical_details := s.technical_details.getD ""
      limitations_and_future_work := s.limitations_and_future_work.getD "" } }

/-- The POST /api/summary handler `generate_summary`
(src/main.py lines 274-344): validate the session, the fixed [1,5]
index range, and the index against the actual paper count; locate the
paper, resolve the orchestrator for the request mode (KeyError for a
mode outside the registry keys, caught by the generic handler as a 500
with the fault message), generate the summary, reject falsy summaries,
write the summary into the paper record, and store the result set back
under the same session id. -/
def generate_summary (mk : MkOrch) (st : ServerState)
    (req : SummaryRequest) : ServerState × HResult SummaryResponse :=
  match st.sessions req.session_id with
  | none => (st, .err 404 sessionNotFoundDetail)
  | some results =>
    if req.paper_index < 1 ∨ req.paper_index > 5 then
      (st, .err 400 invalidPaperIndexDetail)
    else
      let papers := results.top_5_papers.getD []
      if (papers.length : Int) < req.paper_index then
        (st, .err 404 paperNotFoundDetail)
      else
        match papers[(req.paper_index - 1).toNat]? with
        | none => (st, .err 500 listIndexErrorDetail)
        | some paper =>
          match get_orchestrator mk st.registry req.mode with
          | .keyError msg => (st, .err 500 msg)
          | .found orch reg2 =>
            match orch.generate_summary paper with
            | none => ({ st with registry := reg2 }, .err 500 summaryFailedDetail)
            | some s =>
              if ¬ s.toBool then
                ({ st with registry := reg2 }, .err 500 summaryFailedDetail)
              else
                let paper2 : Paper := { paper with summary := some s }
                let papers2 := papers.set (req.paper_index - 1).toNat paper2
                let results2 : ResultSet := { results with top_5_papers := some papers2 }
                ({ registry := reg2,
                   sessions := st.sessions.set req.session_id results2 },
                 .ok (summaryResponseOf paper2 s))

/-! ## Helper lemmas -/

/-- On a valid mode, `get_orchestrator` finds the resolved handle and
leaves the registry in the resolved state. -/
theorem get_orchestrator_eq_found (mk : MkOrch) (r : Registry) (mode : String)
    (h : mode = "arxiv" ∨ mode = "local") :
    get_orchestrator mk r mode =
      OrchLookup.found (resolveHandle mk r mode) (resolveReg mk r mode) := by
  obtain ⟨a, l⟩ := r
  rcases h with h | h <;> subst h
  · cases a <;> simp [get_orchestrator, resolveHandle, resolveReg]
  · cases l <;> simp [get_orchestrator, resolveHandle, resolveReg]

/-- Resolving the registry for one mode does not touch the other mode's
slot, and resolving twice is the same as resolving once; the second
lookup returns the handle stored by the first. -/
theorem resolveReg_preserves_other (mk : MkOrch) (r : Registry) :
    (resolveReg mk r "arxiv").localOrch = r.localOrch ∧
    (resolveReg mk r "local").arxivOrch = r.arxivOrch := by
  constructor <;> simp [resolveReg]

/-- On a mode outside the registry keys, `get_orchestrator` raises a
KeyError whose message is the repr of the missing key. -/
theorem get_orchestrator_keyError (mk : MkOrch) (r : Registry) (mode : String)
    (hma : mode ≠ "arxiv") (hml : mode ≠ "local") :
    get_orchestrator mk r mode = OrchLookup.keyError (keyErrorRepr mode) := by
  unfold get_orchestrator
  rw [if_neg hma, if_neg hml]

/-- The rendered timestamp is always fifteen characters:
eight date digits, an underscore, six time digits. -/
theorem strftimeYmdHMS_length (t : DateTime) : (strftimeYmdHMS t).length = 15 := by
  simp [strftimeYmdHMS, pad2, pad4, String.length_append]
  rfl

/-- Full characterization of `search_papers` on the success path. -/
theorem search_papers_success (mk : MkOrch) (now : DateTime) (st : ServerState)
    (req : SearchRequest) (rs : ResultSet)
    (hm : req.mode = "arxiv" ∨ req.mode = "local")
    (hlen : 50 ≤ req.abstract.length)
    (hrun : (resolveHandle mk st.registry req.mode).run_pipeline req.abstract = some rs)
    (ht : rs.toBool = true) :
    search_papers mk now st req =
      ({ registry := resolveReg mk st.registry req.mode,
         sessions := st.sessions.set (req.mode ++ "_" ++ strftimeYmdHMS now) rs },
       HResult.ok (searchResponseOf req (req.mode ++ "_" ++ strftimeYmdHMS now) rs)) := by
  unfold search_papers
  rw [if_neg (by omega), if_neg (not_not_intro hm),
    get_orchestrator_eq_found mk st.registry req.mode hm]
  simp only [hrun, ht]
  simp

/-- Full characterization of `generate_summary` on the success path. -/
theorem generate_summary_success (mk : MkOrch) (st : ServerState)
    (req : SummaryRequest) (rs : ResultSet) (paper : Paper) (s : Summary)
    (hs : st.sessions req.session_id = some rs)
    (h1 : 1 ≤ req.paper_index) (h5 : req.paper_index ≤ 5)
    (hcount : req.paper_index ≤ ((rs.top_5_papers.getD []).length : Int))
    (hp : (rs.top_5_papers.getD [])[(req.paper_index - 1).toNat]? = some paper)
    (hm : req.mode = "arxiv" ∨ req.mode = "local")
    (hgen : (resolveHandle mk st.registry req.mode).generate_summary paper = some s)
    (hts : s.toBool = true) :
    generate_summary mk st req =
      ({ registry := resolveReg mk st.registry req.mode,
         sessions := st.sessions.set req.session_id
           { rs with top_5_papers := some ((rs.top_5_papers.getD []).set
               (req.paper_index - 1).toNat { paper with summary := some s }) } },
       HResult.ok (summaryResponseOf { paper with summary := some s } s)) := by
  unfold generate_summary
  rw [hs]
  simp only []
  rw [if_neg (by omega)]
  rw [if_neg (by omega)]
  simp only [hp]
  rw [get_orchestrator_eq_found mk st.registry req.mode hm]
  simp only [hgen, hts]
  simp

/-! ## Concrete fixtures evaluated by the witnesses -/

/-- A sample paper record as the pipeline would return it. -/
def paperA : Paper :=
  { rank := some 1
    title := some "Attention Is All You Need"
    authors := some ["Vaswani", "Shazeer"]
    year := some 2017
    arxiv_id := some "1706.03762"
    url := some "https://arxiv.org/abs/1706.03762"
    similarity := some 91
    rerank_score := some 88
    abstract := some "The dominant sequence transduction models are based on complex recurrent or convolutional neural networks."
    summary := none }

/-- A sample result set holding one paper. -/
def rs0 : ResultSet :=
  { query_timestamp := some "2024-01-02T03:04:05"
    keywords := some ["transformers", "attention"]
    metrics := some [("candidates", 20)]
    top_5_papers := some [paperA]
    comparative_analysis := none }

/-- A sample generated summary. -/
def sum0 : Summary :=
  { research_objective := some "Replace recurrence with attention."
    methodology_summary := some "Stacked self-attention and feed-forward layers."
    key_findings := some ["state of the art BLEU"]
    innovation_and_contribution := some "The transformer architecture."
    technical_details := some "Multi-head scaled dot-product attention."
    limitations_and_future_work := some "Extend to other modalities." }

/-- The empty result dictionary: present but falsy. -/
def emptyResultSet : ResultSet :=
  { query_timestamp := none, keywords := none, metrics := none,
    top_5_papers := none, comparative_analysis := none }

/-- The empty summary dictionary: present but falsy. -/
def emptySummary : Summary :=
  { research_objective := none, methodology_summary := none,
    key_findings := none, innovation_and_contribution := none,
    technical_details := none, limitations_and_future_work := none }

/-- A constructor whose handles always produce `rs0` and `sum0`. -/
def mk0 : MkOrch := fun m =>
  { mode := m
    run_pipeline := fun _ => some rs0
    generate_summary := fun _ => some sum0 }

/-- A constructor whose handles always signal failure by absence. -/
def mkNone : MkOrch := fun m =>
  { mode := m
    run_pipeline := fun _ => none
    generate_summary := fun _ => none }

/-- A constructor whose handles return present-but-empty dictionaries. -/
def mkEmpty : MkOrch := fun m =>
  { mode := m
    run_pipeline := fun _ => some emptyResultSet
    generate_summary := fun _ => some emptySummary }

/-- Fresh server state: no handles constructed, no sessions stored. -/
def st0 : ServerState :=
  { registry := { arxivOrch := none, localOrch := none }
    sessions := fun _ => none }

/-- Server state holding one session with result set `rs0`. -/
def stSess : ServerState :=
  { registry := { arxivOrch := none, localOrch := none }
    sessions := fun q => if q = "arxiv_20240102_030405" then some rs0 else none }

/-- A fixed wall-clock instant. -/
def now0 : DateTime :=
  { year := 2024, month := 1, day := 2, hour := 3, minute := 4, second := 5 }

/-- An abstract comfortably longer than fifty characters. -/
def longAbstract : String :=
  "We study transformer architectures for retrieval and ranking tasks at scale."

/-- A valid search request against the arxiv corpus. -/
def reqSearch0 : SearchRequest :=
  { mode := "arxiv", abstract := longAbstract }

/-- A valid summary request against the stored session. -/
def reqSummary0 : SummaryRequest :=
  { mode := "arxiv", paper_index := 1, session_id := "arxiv_20240102_030405" }

/-! ## Claims -/

/-- C3: Search validation short-circuits in order: a request whose
abstract has fewer than 50 code points is rejected with 400
abstract_too_short regardless of mode (even an invalid one); otherwise
a mode outside {arxiv, local} is rejected with 400 invalid_mode.  In
both rejection cases the returned state is exactly the input state (no
session created) and the result does not depend on the pipeline
constructor (no pipeline invoked). -/
theorem C3_search_validation_order (mk : MkOrch) (now : DateTime)
    (st : ServerState) (req : SearchRequest) :
    (req.abstract.length < 50 →
      search_papers mk now st req = (st, .err 400 abstractTooShortDetail)) ∧
    (50 ≤ req.abstract.length → req.mode ≠ "arxiv" → req.mode ≠ "local" →
      search_papers mk now st req = (st, .err 400 invalidModeDetail)) := by
  constructor
  · intro h
    unfold search_papers
    rw [if_pos h]
  · intro hlen hma hml
    unfold search_papers
    rw [if_neg (by omega), if_pos (not_or.mpr ⟨hma, hml⟩)]

/-- C3 witness: a five-character abstract is rejected as too short even
with a valid mode, and a long abstract with mode "gemini" is rejected
as invalid mode; the state is untouched both times. -/
theorem C3_search_validation_order_witness :
    search_papers mk0 now0 st0 { mode := "gemini", abstract := "short" } =
      (st0, .err 400 abstractTooShortDetail) ∧
    search_papers mk0 now0 st0 { mode := "gemini", abstract := longAbstract } =
      (st0, .err 400 invalidModeDetail) :=
  ⟨(C3_search_validation_order mk0 now0 st0 _).1 (by decide),
   (C3_search_validation_order mk0 now0 st0 _).2 (by decide) (by decide) (by decide)⟩

/-- C2: Summarize classifies its errors in a fixed order: an unknown
session id yields 404 session_not_found for any paper_index; an
existing session with paper_index outside [1,5] yields 400
invalid_paper_index regardless of the session's paper count; an
existing session with paper_index in [1,5] but exceeding the actual
paper count yields 404 paper_not_found.  In all three cases the
returned state is exactly the input state. -/
theorem C2_summary_error_order (mk : MkOrch) (st : ServerState)
    (req : SummaryRequest) :
    (st.sessions req.session_id = none →
      generate_summary mk st req = (st, .err 404 sessionNotFoundDetail)) ∧
    (∀ rs : ResultSet, st.sessions req.session_id = some rs →
      (req.paper_index < 1 ∨ 5 < req.paper_index) →
      generate_summary mk st req = (st, .err 400 invalidPaperIndexDetail)) ∧
    (∀ rs : ResultSet, st.sessions req.session_id = some rs →
      1 ≤ req.paper_index → req.paper_index ≤ 5 →
      ((rs.top_5_papers.getD []).length : Int) < req.paper_index →
      generate_summary mk st req = (st, .err 404 paperNotFoundDetail)) := by
  refine ⟨?_, ?_, ?_⟩
  · intro h
    unfold generate_summary
    rw [h]
  · intro rs h hidx
    unfold generate_summary
    rw [h]
    simp only []
    rw [if_pos (by omega)]
  · intro rs h h1 h5 hc
    unfold generate_summary
    rw [h]
    simp only []
    rw [if_neg (by omega), if_pos hc]

/-- C2 witness: against the stored one-paper session, an unknown id
gives session_not_found (even with paper_index 9), index 6 gives
invalid_paper_index, and index 2 (within [1,5] but beyond the single
stored paper) gives paper_not_found; the state is untouched. -/
theorem C2_summary_error_order_witness :
    generate_summary mk0 stSess { mode := "arxiv", paper_index := 9, session_id := "missing" } =
      (stSess, .err 404 sessionNotFoundDetail) ∧
    generate_summary mk0 stSess { mode := "arxiv", paper_index := 6, session_id := "arxiv_20240102_030405" } =
      (stSess, .err 400 invalidPaperIndexDetail) ∧
    generate_summary mk0 stSess { mode := "arxiv", paper_index := 2, session_id := "arxiv_20240102_030405" } =
      (stSess, .err 404 paperNotFoundDetail) :=
  ⟨(C2_summary_error_order mk0 stSess _).1 (by decide),
   (C2_summary_error_order mk0 stSess _).2.1 rs0 (by decide) (by decide),
   (C2_summary_error_order mk0 stSess _).2.2 rs0 (by decide) (by decide) (by decide) (by decide)⟩

/-- C9: Summarize never validates its mode field: with an existing
session and an in-range paper index but a mode outside {arxiv, local},
the registry lookup raises a KeyError which the boundary handler
returns as a generic 500 carrying the fault's message (the repr of the
missing key), not a 400; the returned state is exactly the input state,
so the session's stored result set is unchanged. -/
theorem C9_summary_mode_unvalidated (mk : MkOrch) (st : ServerState)
    (req : SummaryRequest) (rs : ResultSet) (paper : Paper)
    (hs : st.sessions req.session_id = some rs)
    (h1 : 1 ≤ req.paper_index) (h5 : req.paper_index ≤ 5)
    (hcount : req.paper_index ≤ ((rs.top_5_papers.getD []).length : Int))
    (hp : (rs.top_5_papers.getD [])[(req.paper_index - 1).toNat]? = some paper)
    (hma : req.mode ≠ "arxiv") (hml : req.mode ≠ "local") :
    generate_summary mk st req = (st, .err 500 (keyErrorRepr req.mode)) := by
  unfold generate_summary
  rw [hs]
  simp only []
  rw [if_neg (by omega), if_neg (by omega)]
  simp only [hp]
  rw [get_orchestrator_keyError mk st.registry req.mode hma hml]

/-- C9 witness: a summary request with mode "gemini" against the stored
session and paper index 1 returns a 500 carrying the KeyError repr of
"gemini", and the state is untouched. -/
theorem C9_summary_mode_unvalidated_witness :
    generate_summary mk0 stSess { mode := "gemini", paper_index := 1, session_id := "arxiv_20240102_030405" } =
      (stSess, .err 500 (keyErrorRepr "gemini")) :=
  C9_summary_mode_unvalidated mk0 stSess _ rs0 paperA (by decide) (by decide)
    (by decide) (by decide) (by decide) (by decide) (by decide)

/-- C5: A validated search whose pipeline call returns None is answered
with 500 search_failed and the session store is unchanged (only the
registry slot for the mode may have been filled by the lookup). -/
theorem C5_pipeline_none_no_session (mk : MkOrch) (now : DateTime)
    (st : ServerState) (req : SearchRequest)
    (hm : req.mode = "arxiv" ∨ req.mode = "local")
    (hlen : 50 ≤ req.abstract.length)
    (hrun : (resolveHandle mk st.registry req.mode).run_pipeline req.abstract = none) :
    search_papers mk now st req =
      ({ st with registry := resolveReg mk st.registry req.mode },
       .err 500 searchFailedDetail) ∧
    (search_papers mk now st req).1.sessions = st.sessions := by
  have hmain : search_papers mk now st req =
      ({ st with registry := resolveReg mk st.registry req.mode },
       .err 500 searchFailedDetail) := by
    unfold search_papers
    rw [if_neg (by omega), if_neg (not_not_intro hm),
      get_orchestrator_eq_found mk st.registry req.mode hm]
    simp only [hrun]
  exact ⟨hmain, by rw [hmain]⟩

/-- C5 witness: a valid arxiv search against a pipeline that returns
None yields the 500 search_failed error and leaves the (empty) session
store empty. -/
theorem C5_pipeline_none_no_session_witness :
    search_papers mkNone now0 st0 reqSearch0 =
      ({ st0 with registry := resolveReg mkNone st0.registry "arxiv" },
       .err 500 searchFailedDetail) ∧
    (search_papers mkNone now0 st0 reqSearch0).1.sessions = st0.sessions :=
  C5_pipeline_none_no_session mkNone now0 st0 reqSearch0 (Or.inl rfl) (by decide) rfl

/-- C6: A summarize request that passes session and index validation
but whose summarizer call returns None is answered with 500
summary_failed; the session store is unchanged (only the registry slot
may have been filled), so the stored result set — and with it the
target paper's prior summary value — is exactly what it was. -/
theorem C6_summary_none_unchanged (mk : MkOrch) (st : ServerState)
    (req : SummaryRequest) (rs : ResultSet) (paper : Paper)
    (hs : st.sessions req.session_id = some rs)
    (h1 : 1 ≤ req.paper_index) (h5 : req.paper_index ≤ 5)
    (hcount : req.paper_index ≤ ((rs.top_5_papers.getD []).length : Int))
    (hp : (rs.top_5_papers.getD [])[(req.paper_index - 1).toNat]? = some paper)
    (hm : req.mode = "arxiv" ∨ req.mode = "local")
    (hgen : (resolveHandle mk st.registry req.mode).generate_summary paper = none) :
    generate_summary mk st req =
      ({ st with registry := resolveReg mk st.registry req.mode },
       .err 500 summaryFailedDetail) ∧
    (generate_summary mk st req).1.sessions = st.sessions ∧
    (generate_summary mk st req).1.sessions req.session_id = some rs := by
  have hmain : generate_summary mk st req =
      ({ st with registry := resolveReg mk st.registry req.mode },
       .err 500 summaryFailedDetail) := by
    unfold generate_summary
    rw [hs]
    simp only []
    rw [if_neg (by omega), if_neg (by omega)]
    simp only [hp]
    rw [get_orchestrator_eq_found mk st.registry req.mode hm]
    simp only [hgen]
  exact ⟨hmain, by rw [hmain], by rw [hmain]; exact hs⟩

/-- C6 witness: against the stored session, a summarizer that returns
None yields the 500 summary_failed error and the stored result set for
the session is still `rs0`, with the target paper's summary still
absent. -/
theorem C6_summary_none_unchanged_witness :
    generate_summary mkNone stSess reqSummary0 =
      ({ stSess with registry := resolveReg mkNone stSess.registry "arxiv" },
       .err 500 summaryFailedDetail) ∧
    (generate_summary mkNone stSess reqSummary0).1.sessions = stSess.sessions ∧
    (generate_summary mkNone stSess reqSummary0).1.sessions "arxiv_20240102_030405" = some rs0 :=
  C6_summary_none_unchanged mkNone stSess reqSummary0 rs0 paperA (by decide)
    (by decide) (by decide) (by decide) (by decide) (Or.inl rfl) rfl

/-- C10: Collaborator results are judged by truthiness, not only by
absence: a present-but-empty pipeline result dictionary is classified
as 500 search_failed with the session store unchanged, and a
present-but-empty summary dictionary is classified as 500
summary_failed with the session store unchanged, exactly as for None. -/
theorem C10_empty_results_are_failures (mk : MkOrch) (now : DateTime)
    (st : ServerState) :
    (∀ (req : SearchRequest) (rs : ResultSet),
      (req.mode = "arxiv" ∨ req.mode = "local") →
      50 ≤ req.abstract.length →
      (resolveHandle mk st.registry req.mode).run_pipeline req.abstract = some rs →
      rs.toBool = false →
      search_papers mk now st req =
        ({ st with registry := resolveReg mk st.registry req.mode },
         .err 500 searchFailedDetail)) ∧
    (∀ (req : SummaryRequest) (rs : ResultSet) (paper : Paper) (s : Summary),
      st.sessions req.session_id = some rs →
      1 ≤ req.paper_index → req.paper_index ≤ 5 →
      req.paper_index ≤ ((rs.top_5_papers.getD []).length : Int) →
      (rs.top_5_papers.getD [])[(req.paper_index - 1).toNat]? = some paper →
      (req.mode = "arxiv" ∨ req.mode = "local") →
      (resolveHandle mk st.registry req.mode).generate_summary paper = some s →
      s.toBool = false →
      generate_summary mk st req =
        ({ st with registry := resolveReg mk st.registry req.mode },
         .err 500 summaryFailedDetail)) := by
  constructor
  · intro req rs hm hlen hrun hfalse
    unfold search_papers
    rw [if_neg (by omega), if_neg (not_not_intro hm),
      get_orchestrator_eq_found mk st.registry req.mode hm]
    simp only [hrun]
    rw [if_pos (by simp [hfalse])]
  · intro req rs paper s hs h1 h5 hcount hp hm hgen hfalse
    unfold generate_summary
    rw [hs]
    simp only []
    rw [if_neg (by omega), if_neg (by omega)]
    simp only [hp]
    rw [get_orchestrator_eq_found mk st.registry req.mode hm]
    simp only [hgen]
    rw [if_pos (by simp [hfalse])]

/-- C10 witness: with a pipeline returning the empty dictionary, a
valid search yields 500 search_failed with no session created, and a
valid summary request against the stored session yields
500 summary_failed with the store unchanged. -/
theorem C10_empty_results_are_failures_witness :
    search_papers mkEmpty now0 st0 reqSearch0 =
      ({ st0 with registry := resolveReg mkEmpty st0.registry "arxiv" },
       .err 500 searchFailedDetail) ∧
    generate_summary mkEmpty stSess reqSummary0 =
      ({ stSess with registry := resolveReg mkEmpty stSess.registry "arxiv" },
       .err 500 summaryFailedDetail) :=
  ⟨(C10_empty_results_are_failures mkEmpty now0 st0).1 reqSearch0 emptyResultSet
      (Or.inl rfl) (by decide) rfl (by decide),
   (C10_empty_results_are_failures mkEmpty now0 stSess).2 reqSummary0 rs0 paperA
      emptySummary (by decide) (by decide) (by decide) (by decide) (by decide)
      (Or.inl rfl) rfl (by decide)⟩

/-- C1: In a successful search response, every embedded paper abstract
equals the first 300 code points of the source abstract with the
three-character suffix "..." appended — also when the source is shorter
than 300 characters — and an absent source abstract yields exactly
"...". -/
theorem C1_abstract_truncation (mk : MkOrch) (now : DateTime) (st : ServerState)
    (req : SearchRequest) (rs : ResultSet)
    (hm : req.mode = "arxiv" ∨ req.mode = "local")
    (hlen : 50 ≤ req.abstract.length)
    (hrun : (resolveHandle mk st.registry req.mode).run_pipeline req.abstract = some rs)
    (ht : rs.toBool = true) :
    ∃ resp : SearchResponse,
      (search_papers mk now st req).2 = HResult.ok resp ∧
      resp.top_5_papers = ((rs.top_5_papers.getD []).take 5).map formatPaper ∧
      (∀ p : Paper, (formatPaper p).abstract = pySlice (p.abstract.getD "") 300 ++ "...") ∧
      (∀ p : Paper, p.abstract = none → (formatPaper p).abstract = "...") := by
  refine ⟨searchResponseOf req (req.mode ++ "_" ++ strftimeYmdHMS now) rs,
    ?_, rfl, fun p => rfl, fun p hp => ?_⟩
  · rw [search_papers_success mk now st req rs hm hlen hrun ht]
  · show pySlice (p.abstract.getD "") 300 ++ "..." = "..."
    rw [hp]
    decide

/-- C1 witness: the concrete search succeeds and its single paper view
carries the truncated-with-ellipsis abstract. -/
theorem C1_abstract_truncation_witness :
    ∃ resp : SearchResponse,
      (search_papers mk0 now0 st0 reqSearch0).2 = HResult.ok resp ∧
      resp.top_5_papers = ((rs0.top_5_papers.getD []).take 5).map formatPaper ∧
      (∀ p : Paper, (formatPaper p).abstract = pySlice (p.abstract.getD "") 300 ++ "...") ∧
      (∀ p : Paper, p.abstract = none → (formatPaper p).abstract = "...") :=
  C1_abstract_truncation mk0 now0 st0 reqSearch0 rs0 (Or.inl rfl) (by decide) rfl rfl

/-- C4: A successful search stores the pipeline's result set under the
session id "{mode}_{YYYYMMDD_HHMMSS}" (mode, underscore, then the
fifteen-character timestamp), touches no other session, echoes that id
in the response, and the response's paper list has length at most 5 and
at most the pipeline's returned paper count. -/
theorem C4_search_creates_one_session (mk : MkOrch) (now : DateTime)
    (st : ServerState) (req : SearchRequest) (rs : ResultSet)
    (hm : req.mode = "arxiv" ∨ req.mode = "local")
    (hlen : 50 ≤ req.abstract.length)
    (hrun : (resolveHandle mk st.registry req.mode).run_pipeline req.abstract = some rs)
    (ht : rs.toBool = true) :
    ∃ resp : SearchResponse,
      search_papers mk now st req =
        ({ registry := resolveReg mk st.registry req.mode,
           sessions := st.sessions.set (req.mode ++ "_" ++ strftimeYmdHMS now) rs },
         HResult.ok resp) ∧
      resp.session_id = req.mode ++ "_" ++ strftimeYmdHMS now ∧
      (strftimeYmdHMS now).length = 15 ∧
      (search_papers mk now st req).1.sessions (req.mode ++ "_" ++ strftimeYmdHMS now) = some rs ∧
      (∀ k, k ≠ req.mode ++ "_" ++ strftimeYmdHMS now →
        (search_papers mk now st req).1.sessions k = st.sessions k) ∧
      resp.top_5_papers.length ≤ 5 ∧
      resp.top_5_papers.length ≤ (rs.top_5_papers.getD []).length := by
  have hmain := search_papers_success mk now st req rs hm hlen hrun ht
  refine ⟨searchResponseOf req (req.mode ++ "_" ++ strftimeYmdHMS now) rs,
    hmain, rfl, strftimeYmdHMS_length now, ?_, ?_, ?_, ?_⟩
  · rw [hmain]
    simp [Sessions.set]
  · intro k hk
    rw [hmain]
    simp [Sessions.set, hk]
  · simp only [searchResponseOf, List.length_map, List.length_take]
    omega
  · simp only [searchResponseOf, List.length_map, List.length_take]
    omega

/-- C4 witness: the concrete search creates exactly the session
"arxiv_20240102_030405" holding `rs0`, other keys stay absent, and the
one-paper view respects both length bounds. -/
theorem C4_search_creates_one_session_witness :
    ∃ resp : SearchResponse,
      search_papers mk0 now0 st0 reqSearch0 =
        ({ registry := resolveReg mk0 st0.registry "arxiv",
           sessions := st0.sessions.set ("arxiv" ++ "_" ++ strftimeYmdHMS now0) rs0 },
         HResult.ok resp) ∧
      resp.session_id = "arxiv" ++ "_" ++ strftimeYmdHMS now0 ∧
      (strftimeYmdHMS now0).length = 15 ∧
      (search_papers mk0 now0 st0 reqSearch0).1.sessions ("arxiv" ++ "_" ++ strftimeYmdHMS now0) = some rs0 ∧
      (∀ k, k ≠ "arxiv" ++ "_" ++ strftimeYmdHMS now0 →
        (search_papers mk0 now0 st0 reqSearch0).1.sessions k = st0.sessions k) ∧
      resp.top_5_papers.length ≤ 5 ∧
      resp.top_5_papers.length ≤ (rs0.top_5_papers.getD []).length :=
  C4_search_creates_one_session mk0 now0 st0 reqSearch0 rs0 (Or.inl rfl) (by decide) rfl rfl

/-- C7: A successful summarize on (session_id, paper_index) replaces
the stored result set by one whose paper at position paper_index - 1 is
the located paper with only its summary field overwritten (the prior
summary value was arbitrary, so re-summarizing simply replaces it);
every other position of the paper list and every other session are
unchanged. -/
theorem C7_summary_success_frame (mk : MkOrch) (st : ServerState)
    (req : SummaryRequest) (rs : ResultSet) (paper : Paper) (s : Summary)
    (hs : st.sessions req.session_id = some rs)
    (h1 : 1 ≤ req.paper_index) (h5 : req.paper_index ≤ 5)
    (hcount : req.paper_index ≤ ((rs.top_5_papers.getD []).length : Int))
    (hp : (rs.top_5_papers.getD [])[(req.paper_index - 1).toNat]? = some paper)
    (hm : req.mode = "arxiv" ∨ req.mode = "local")
    (hgen : (resolveHandle mk st.registry req.mode).generate_summary paper = some s)
    (hts : s.toBool = true) :
    generate_summary mk st req =
      ({ registry := resolveReg mk st.registry req.mode,
         sessions := st.sessions.set req.session_id
           { rs with top_5_papers := some ((rs.top_5_papers.getD []).set
               (req.paper_index - 1).toNat { paper with summary := some s }) } },
       HResult.ok (summaryResponseOf { paper with summary := some s } s)) ∧
    ((rs.top_5_papers.getD []).set (req.paper_index - 1).toNat
        { paper with summary := some s })[(req.paper_index - 1).toNat]? =
      some { paper with summary := some s } ∧
    (∀ j, j ≠ (req.paper_index - 1).toNat →
      ((rs.top_5_papers.getD []).set (req.paper_index - 1).toNat
          { paper with summary := some s })[j]? = (rs.top_5_papers.getD [])[j]?) ∧
    (∀ k, k ≠ req.session_id →
      (generate_summary mk st req).1.sessions k = st.sessions k) := by
  have hmain := generate_summary_success mk st req rs paper s hs h1 h5 hcount hp hm hgen hts
  have hi : (req.paper_index - 1).toNat < (rs.top_5_papers.getD []).length := by omega
  refine ⟨hmain, List.getElem?_set_eq_of_lt _ hi, fun j hj => List.getElem?_set_ne (Ne.symm hj), fun k hk => ?_⟩
  rw [hmain]
  simp [Sessions.set, hk]

/-- C7 witness: summarizing paper 1 of the stored session stores `rs0`
with its only paper carrying summary `sum0`, other fields intact, and
an unrelated session key stays absent. -/
theorem C7_summary_success_frame_witness :
    generate_summary mk0 stSess reqSummary0 =
      ({ registry := resolveReg mk0 stSess.registry "arxiv",
         sessions := stSess.sessions.set "arxiv_20240102_030405"
           { rs0 with top_5_papers := some ((rs0.top_5_papers.getD []).set 0
               { paperA with summary := some sum0 }) } },
       HResult.ok (summaryResponseOf { paperA with summary := some sum0 } sum0)) ∧
    ((rs0.top_5_papers.getD []).set 0 { paperA with summary := some sum0 })[(0 : Nat)]? =
      some { paperA with summary := some sum0 } ∧
    (∀ j, j ≠ (0 : Nat) →
      ((rs0.top_5_papers.getD []).set 0 { paperA with summary := some sum0 })[j]? =
        (rs0.top_5_papers.getD [])[j]?) ∧
    (∀ k, k ≠ "arxiv_20240102_030405" →
      (generate_summary mk0 stSess reqSummary0).1.sessions k = stSess.sessions k) :=
  C7_summary_success_frame mk0 stSess reqSummary0 rs0 paperA sum0 (by decide)
    (by decide) (by decide) (by decide) (by decide) (Or.inl rfl) rfl (by decide)

/-- C8: The pipeline registry is a memoizing factory: for each of the
two modes, a lookup with an empty slot constructs and stores one
handle, a second lookup returns exactly the stored handle without
changing the registry, a lookup with a filled slot returns the stored
handle unchanged, and filling one mode's slot leaves the other mode's
slot untouched. -/
theorem C8_registry_memoizes (mk : MkOrch) (r : Registry) :
    (r.arxivOrch = none →
      get_orchestrator mk r "arxiv" =
        OrchLookup.found (mk "arxiv") { r with arxivOrch := some (mk "arxiv") } ∧
      get_orchestrator mk { r with arxivOrch := some (mk "arxiv") } "arxiv" =
        OrchLookup.found (mk "arxiv") { r with arxivOrch := some (mk "arxiv") }) ∧
    (∀ h : PipelineHandle, r.arxivOrch = some h →
      get_orchestrator mk r "arxiv" = OrchLookup.found h r) ∧
    (r.localOrch = none →
      get_orchestrator mk r "local" =
        OrchLookup.found (mk "local") { r with localOrch := some (mk "local") } ∧
      get_orchestrator mk { r with localOrch := some (mk "local") } "local" =
        OrchLookup.found (mk "local") { r with localOrch := some (mk "local") }) ∧
    (∀ h : PipelineHandle, r.localOrch = some h →
      get_orchestrator mk r "local" = OrchLookup.found h r) ∧
    ({ r with arxivOrch := some (mk "arxiv") } : Registry).localOrch = r.localOrch ∧
    ({ r with localOrch := some (mk "local") } : Registry).arxivOrch = r.arxivOrch := by
  obtain ⟨a, l⟩ := r
  refine ⟨fun ha => ?_, fun h ha => ?_, fun hl => ?_, fun h hl => ?_, rfl, rfl⟩
  · subst ha
    constructor <;> simp [get_orchestrator]
  · subst ha
    simp [get_orchestrator]
  · subst hl
    constructor <;> simp [get_orchestrator]
  · subst hl
    simp [get_orchestrator]

/-- C8 witness: from the fresh registry, the first arxiv lookup
constructs and stores the handle and the second returns that stored
handle with the registry unchanged. -/
theorem C8_registry_memoizes_witness :
    get_orchestrator mk0 { arxivOrch := none, localOrch := none } "arxiv" =
      OrchLookup.found (mk0 "arxiv") { arxivOrch := some (mk0 "arxiv"), localOrch := none } ∧
    get_orchestrator mk0 { arxivOrch := some (mk0 "arxiv"), localOrch := none } "arxiv" =
      OrchLookup.found (mk0 "arxiv") { arxivOrch := some (mk0 "arxiv"), localOrch := none } :=
  (C8_registry_memoizes mk0 { arxivOrch := none, localOrch := none }).1 rfl

end ArxivFrontend
